import Mathlib

set_option maxRecDepth 100000

/-!
Verification of the document-analysis pipeline of `src/main.py`
(class `DocumentAnalyzer`).  Text is modelled as `List Char`; the
spaCy document is modelled by the interface the code actually uses:
a list of entity spans, a token count, and a token-slice accessor.
Every extractor of the Python class is translated below, and the
claims about the pipeline are settled as theorems at the end.
-/

/-- Whitespace characters removed by Python `str.strip()` (ASCII range). -/
def pyIsSpace (c : Char) : Bool :=
  c == ' ' || c == '\t' || c == '\n' || c == '\r' || c == '\x0b' || c == '\x0c'

/-- Python `str.lstrip()` on the ASCII whitespace set. -/
def pyDropStart (l : List Char) : List Char :=
  l.dropWhile pyIsSpace

/-- Python `str.rstrip()` on the ASCII whitespace set. -/
def pyDropEnd (l : List Char) : List Char :=
  (l.reverse.dropWhile pyIsSpace).reverse

/-- Python `str.strip()`: drop whitespace from both ends. -/
def pyStrip (l : List Char) : List Char :=
  pyDropEnd (pyDropStart l)

/-- Python `str.lower()` (ASCII case folding, which covers all inputs used here). -/
def lowerL (l : List Char) : List Char :=
  l.map Char.toLower

/-- Python `text.split(chr(10))`: split on every newline, keeping empty pieces. -/
def splitOnNl : List Char → List (List Char)
  | [] => [[]]
  | c :: rest =>
    if c = '\n' then [] :: splitOnNl rest
    else
      match splitOnNl rest with
      | [] => [[c]]
      | line :: more => (c :: line) :: more

/-- Does `hay` start with `needle`? Helper for substring containment. -/
def leadsWith : List Char → List Char → Bool
  | [], _ => true
  | _ :: _, [] => false
  | n :: ns, h :: hs => n == h && leadsWith ns hs

/-- Python substring containment `needle in hay`. -/
def isSub (needle : List Char) : List Char → Bool
  | [] => leadsWith needle []
  | h :: rest => leadsWith needle (h :: rest) || isSub needle rest

/-- Number of start positions of `hay` at which `needle` occurs. -/
def countSub (needle : List Char) : List Char → Nat
  | [] => if leadsWith needle [] then 1 else 0
  | h :: rest => (if leadsWith needle (h :: rest) then 1 else 0) + countSub needle rest

/-- The duplicate-removal loop shared by all five extractors: walk the
collected list keeping each item whose key was not seen before, threading
the set of seen keys (`seen = set()` in the Python code). -/
def dedupBy {α κ : Type} [DecidableEq κ] (key : α → κ) : List α → List κ → List α
  | [], _ => []
  | a :: rest, seen =>
    if key a ∈ seen then dedupBy key rest seen
    else a :: dedupBy key rest (key a :: seen)

/-- Index of the first occurrence of `a`, or the length when absent. -/
def idxOf {α : Type} [DecidableEq α] (a : α) : List α → Nat
  | [] => 0
  | x :: rest => if x = a then 0 else idxOf a rest + 1

/-- An extracted `(heading, content)` pair. -/
abbrev Item := List Char × List Char

/-- An entity span as produced by the external recognizer: its label
(PERSON, ORG, MONEY, DATE), surface text, and token start/end indices. -/
structure Ent where
  label : List Char
  text : List Char
  start : Nat
  stop : Nat
deriving DecidableEq

/-- The recognizer output as used by the code: the entity list, the token
count `len(doc)`, and the token-slice accessor `doc[a:b].text`. -/
structure Doc where
  ents : List Ent
  tokLen : Nat
  sliceText : Nat → Nat → List Char

/-- A document with no recognized entities. -/
def emptyDoc : Doc := ⟨[], 0, fun _ _ => []⟩

/-- A recognizer that returns no entities on any text. -/
def nlpEmpty : List Char → Doc := fun _ => emptyDoc

/-- Character classes occurring in the regular expressions of the source. -/
inductive CC where
  | one : Char → CC
  | ci : Char → CC
  | digit : CC
  | ws : CC
  | digitComma : CC
  | alnumParen : CC
  | alnumDash : CC
deriving DecidableEq

/-- Membership of a character in a class.  Classes written with letters in
the source are matched case-insensitively because every use site passes
`re.IGNORECASE` (so `[A-Z0-9-]` and `[a-z0-9]` accept both cases). -/
def ccMatch : CC → Char → Bool
  | .one c, x => x == c
  | .ci c, x => x.toLower == c.toLower
  | .digit, x => '0' ≤ x && x ≤ '9'
  | .ws, x => pyIsSpace x
  | .digitComma, x => ('0' ≤ x && x ≤ '9') || x == ','
  | .alnumParen, x => ('a' ≤ x && x ≤ 'z') || ('A' ≤ x && x ≤ 'Z') || ('0' ≤ x && x ≤ '9')
  | .alnumDash, x =>
    ('A' ≤ x && x ≤ 'Z') || ('a' ≤ x && x ≤ 'z') || ('0' ≤ x && x ≤ '9') || x == '-'

/-- Regular expressions: empty language, empty word, one class, sequence,
alternation, Kleene star. -/
inductive RE where
  | fail : RE
  | eps : RE
  | cls : CC → RE
  | seq : RE → RE → RE
  | alt : RE → RE → RE
  | star : RE → RE
deriving DecidableEq

/-- Sequence, collapsing the empty language and the empty word. -/
def rseq : RE → RE → RE
  | .fail, _ => .fail
  | _, .fail => .fail
  | .eps, b => b
  | a, .eps => a
  | a, b => .seq a b

/-- Alternation, collapsing the empty language. -/
def ralt : RE → RE → RE
  | .fail, b => b
  | a, .fail => a
  | a, b => .alt a b

/-- Does the expression accept the empty word? -/
def nullable : RE → Bool
  | .fail => false
  | .eps => true
  | .cls _ => false
  | .seq a b => nullable a && nullable b
  | .alt a b => nullable a || nullable b
  | .star _ => true

/-- Brzozowski derivative of an expression with respect to one character. -/
def rderiv : RE → Char → RE
  | .fail, _ => .fail
  | .eps, _ => .fail
  | .cls cc, c => if ccMatch cc c then .eps else .fail
  | .seq a b, c =>
    if nullable a then ralt (rseq (rderiv a c) b) (rderiv b c)
    else rseq (rderiv a c) b
  | .alt a b, c => ralt (rderiv a c) (rderiv b c)
  | .star a, c => rseq (rderiv a c) (.star a)

/-- Does the expression match some leading segment of the list? -/
def matchSomeLead : RE → List Char → Bool
  | r, [] => nullable r
  | r, c :: cs =>
    nullable r ||
      match rderiv r c with
      | .fail => false
      | d => matchSomeLead d cs

/-- Python `re.search`: does the expression match a segment starting at
some position of the list? -/
def reSearch (r : RE) : List Char → Bool
  | [] => nullable r
  | c :: rest => matchSomeLead r (c :: rest) || reSearch r rest

/-- One exact character as an expression. -/
def chrE (c : Char) : RE := .cls (.one c)

/-- One case-insensitive character as an expression. -/
def chrCI (c : Char) : RE := .cls (.ci c)

/-- A case-insensitive literal word. -/
def litCI (s : String) : RE :=
  s.data.foldr (fun c r => .seq (chrCI c) r) .eps

/-- Optional occurrence, regex `?`. -/
def ropt (r : RE) : RE := .alt r .eps

/-- One or more occurrences, regex `+`. -/
def rplus (r : RE) : RE := .seq r (.star r)

/-- Chain a nonempty list of alternatives. -/
def altList : List RE → RE
  | [] => .fail
  | [r] => r
  | r :: rest => .alt r (altList rest)

/-- Chain a list of expressions in sequence. -/
def seqList : List RE → RE
  | [] => .eps
  | [r] => r
  | r :: rest => .seq r (seqList rest)

/-- Regex `\s+`. -/
def wsPlus : RE := rplus (.cls .ws)

/-- Regex `\s*`. -/
def wsStar : RE := .star (.cls .ws)

/-- Regex `\d+`. -/
def digPlus : RE := rplus (.cls .digit)

/-- Regex `\d{1,2}`. -/
def dig12 : RE := .seq (.cls .digit) (ropt (.cls .digit))

/-- Regex `\d{2,4}`. -/
def dig24 : RE := seqList [.cls .digit, .cls .digit, ropt (.cls .digit), ropt (.cls .digit)]

/-- Regex `\d{4}`. -/
def dig4 : RE := seqList [.cls .digit, .cls .digit, .cls .digit, .cls .digit]

/-- Abbreviate a string literal as a character list. -/
def litL (s : String) : List Char := s.data

/-- Regex `\\$\\s*[\\d,]+\\.?\\d*` (first money pattern). -/
def moneyP1 : RE :=
  seqList [chrE '$', wsStar, rplus (.cls .digitComma), ropt (chrE '.'), .star (.cls .digit)]

/-- Regex `USD\\s*[\\d,]+\\.?\\d*` (second money pattern). -/
def moneyP2 : RE :=
  seqList [litCI ("USD"), wsStar, rplus (.cls .digitComma), ropt (chrE '.'), .star (.cls .digit)]

/-- Regex `[\\d,]+\\.?\\d*\\s*dollars?` (third money pattern). -/
def moneyP3 : RE :=
  seqList [rplus (.cls .digitComma), ropt (chrE '.'), .star (.cls .digit), wsStar,
    litCI ("dollar"), ropt (chrCI 's')]

/-- The money patterns in source order. -/
def moneyPatterns : List RE := [moneyP1, moneyP2, moneyP3]

/-- The twelve month names of the textual date patterns. -/
def monthNames : List String :=
  ["January", "February", "March", "April", "May", "June", "July",
   "August", "September", "October", "November", "December"]

/-- Regex `\\d{1,2}/\\d{1,2}/\\d{2,4}`. -/
def dateP1 : RE := seqList [dig12, chrE '/', dig12, chrE '/', dig24]

/-- Regex `\\d{1,2}-\\d{1,2}-\\d{2,4}`. -/
def dateP2 : RE := seqList [dig12, chrE '-', dig12, chrE '-', dig24]

/-- Regex `(January|...|December)\\s+\\d{1,2},?\\s+\\d{4}`. -/
def dateP3 : RE :=
  seqList [altList (monthNames.map litCI), wsPlus, dig12, ropt (chrE ','), wsPlus, dig4]

/-- Regex `\\d{1,2}\\s+(January|...|December)\\s+\\d{4}`. -/
def dateP4 : RE :=
  seqList [dig12, wsPlus, altList (monthNames.map litCI), wsPlus, dig4]

/-- The date patterns in source order. -/
def datePatterns : List RE := [dateP1, dateP2, dateP3, dateP4]

/-- The two characters that appear in the source where a section sign was
intended (the file stores them as the codepoints U+00AC U+00DF). -/
def sectChars : String := "¬ß"

/-- Regex `(?:Section|Sec\\.|¬ß)\\s*\\d+(?:\\.\\d+)*(?:\\([a-z0-9]+\\))?`. -/
def legalP1 : RE :=
  seqList [altList [litCI ("Section"), litCI ("Sec."), litCI sectChars],
    wsStar, digPlus, .star (seqList [chrE '.', digPlus]),
    ropt (seqList [chrE '(', rplus (.cls .alnumParen), chrE ')'])]

/-- The subterm `¬ß?` of patterns 2 and 3: the regex question mark
binds only to the single preceding character, so `¬` is mandatory
and only `ß` is optional. -/
def sectQM : RE := .seq (chrCI '¬') (ropt (chrCI 'ß'))

/-- Regex `\\d+\\s+U\\.?S\\.?C\\.?\\s*¬ß?\\s*\\d+`. -/
def legalP2 : RE :=
  seqList [digPlus, wsPlus, chrCI 'U', ropt (chrE '.'), chrCI 'S', ropt (chrE '.'),
    chrCI 'C', ropt (chrE '.'), wsStar, sectQM, wsStar, digPlus]

/-- Regex `IRC\\s*¬ß?\\s*\\d+(?:\\([a-z0-9]+\\))?`. -/
def legalP3 : RE :=
  seqList [litCI ("IRC"), wsStar, sectQM, wsStar, digPlus,
    ropt (seqList [chrE '(', rplus (.cls .alnumParen), chrE ')'])]

/-- Regex `\\d+\\s+CFR\\s+\\d+(?:\\.\\d+)*`. -/
def legalP4 : RE :=
  seqList [digPlus, wsPlus, litCI ("CFR"), wsPlus, digPlus,
    .star (seqList [chrE '.', digPlus])]

/-- Regex `Title\\s+\\d+(?:,\\s*(?:Section|¬ß)\\s*\\d+)?`. -/
def legalP5 : RE :=
  seqList [litCI ("Title"), wsPlus, digPlus,
    ropt (seqList [chrE ',', wsStar, altList [litCI ("Section"), litCI sectChars],
      wsStar, digPlus])]

/-- Regex `(?:Pub\\.|Public)\\s*L\\.\\s*(?:No\\.\\s*)?\\d+-\\d+`. -/
def legalP6 : RE :=
  seqList [altList [litCI ("Pub."), litCI ("Public")], wsStar, chrCI 'L', chrE '.',
    wsStar, ropt (seqList [litCI ("No"), chrE '.', wsStar]), digPlus, chrE '-', digPlus]

/-- The ordered (pattern, heading) table of `extract_legal_references`. -/
def legalPatterns : List (RE × List Char) :=
  [(legalP1, litL ("Section")), (legalP2, litL ("USC Reference")),
   (legalP3, litL ("IRC Section")), (legalP4, litL ("CFR Reference")),
   (legalP5, litL ("Title Reference")), (legalP6, litL ("Public Law"))]

/-- The three characters that appear in the source where a bullet glyph
was intended (the file stores them as the codepoints U+201A U+00C4 U+00A2). -/
def bulletMark : List Char := litL ("‚Ä¢")

/-- After the first digit of a `\\d+\\.` candidate: the remaining digits
followed by a literal dot. -/
def digitsThenDot : List Char → Bool
  | [] => false
  | c :: rest => if ccMatch .digit c then digitsThenDot rest else c == '.'

/-- Regex alternative `\\d+\\.` anchored at the start. -/
def digitsDotLead : List Char → Bool
  | [] => false
  | c :: rest => ccMatch .digit c && digitsThenDot rest

/-- Regex alternative `[A-Z]\\.` anchored at the start (no IGNORECASE here). -/
def upperDotLead : List Char → Bool
  | c :: d :: _ => ('A' ≤ c && c ≤ 'Z') && d == '.'
  | _ => false

/-- Python `re.match` of `^(?:\\d+\\.|[A-Z]\\.|‚Ä¢|\\*)` used by the
other-details line scan. -/
def otherMarker (s : List Char) : Bool :=
  digitsDotLead s || upperDotLead s || leadsWith bulletMark s || leadsWith [ '*' ] s

/-- Consume a case-insensitive literal from the front, returning the rest. -/
def matchLitCI : List Char → List Char → Option (List Char)
  | [], rest => some rest
  | _ :: _, [] => none
  | n :: ns, h :: hs => if n.toLower == h.toLower then matchLitCI ns hs else none

/-- The maximal run of `[A-Z0-9-]` characters (IGNORECASE) and the rest. -/
def spanAlnumDash (l : List Char) : List Char × List Char :=
  (l.takeWhile (ccMatch .alnumDash), l.dropWhile (ccMatch .alnumDash))

/-- The common tail `\s*[:.]?\s*([A-Z0-9-]+)` of the three case-number
patterns: skip whitespace, an optional colon or dot, more whitespace, then
capture a nonempty alphanumeric-or-hyphen run.  Returns the capture and
the remaining text after the match. -/
def caseIdTail (l : List Char) : Option (List Char × List Char) :=
  let l1 := l.dropWhile pyIsSpace
  let l2 :=
    match l1 with
    | ':' :: r => r
    | '.' :: r => r
    | _ => l1
  let l3 := l2.dropWhile pyIsSpace
  match spanAlnumDash l3 with
  | ([], _) => none
  | (cap, rest) => some (cap, rest)

/-- Try `KW\s+No\.?` followed by `caseIdTail` at the current position,
where `KW` is `Case` or `Docket` (patterns one and two of
`extract_case_info`). -/
def tryKwNo (kw : String) (l : List Char) : Option (List Char × List Char) :=
  match matchLitCI kw.data l with
  | none => none
  | some r1 =>
    match r1 with
    | [] => none
    | c :: _ =>
      if pyIsSpace c then
        match matchLitCI (litL ("No")) (r1.dropWhile pyIsSpace) with
        | none => none
        | some r2 =>
          caseIdTail
            (match r2 with
             | '.' :: r => r
             | _ => r2)
      else none

/-- Try `Case\s+Number` followed by `caseIdTail` at the current position
(pattern three of `extract_case_info`). -/
def tryCaseNumberPat (l : List Char) : Option (List Char × List Char) :=
  match matchLitCI (litL ("Case")) l with
  | none => none
  | some r1 =>
    match r1 with
    | [] => none
    | c :: _ =>
      if pyIsSpace c then
        match matchLitCI (litL ("Number")) (r1.dropWhile pyIsSpace) with
        | none => none
        | some r2 => caseIdTail r2
      else none

/-- Python `re.finditer`: scan left to right, trying a match at every
position; on success emit the capture and continue after the matched
span.  The fuel argument is the length of the scanned text, which
suffices because every step consumes at least one character. -/
def scanFind (tryM : List Char → Option (List Char × List Char)) : Nat → List Char → List (List Char)
  | 0, _ => []
  | fuel + 1, l =>
    match tryM l with
    | some (cap, rest) => cap :: scanFind tryM fuel rest
    | none =>
      match l with
      | [] => []
      | _ :: t => scanFind tryM fuel t

/-- All captures of the three case-number patterns over the whole text,
pattern by pattern, each scanned left to right. -/
def caseNumberCaptures (text : List Char) : List (List Char) :=
  scanFind (tryKwNo ("Case")) text.length text
    ++ scanFind (tryKwNo ("Docket")) text.length text
    ++ scanFind tryCaseNumberPat text.length text

/-- The `tax_keywords` list of `DocumentAnalyzer.__init__`. -/
def taxKeywords : List (List Char) :=
  [litL ("tax"), litL ("penalty"), litL ("interest"), litL ("assessment"),
   litL ("liability"), litL ("payment"), litL ("amount due"), litL ("balance"),
   litL ("deficiency"), litL ("refund")]

/-- The `date_keywords` list of `DocumentAnalyzer.__init__`. -/
def dateKeywords : List (List Char) :=
  [litL ("deadline"), litL ("due date"), litL ("filing date"), litL ("hearing"),
   litL ("trial date"), litL ("effective date"), litL ("tax year"), litL ("period")]

/-- Everything after the first colon, or the whole list when there is no
colon (like `split(sep, 1)` taking the last piece). -/
def afterFirstColon : List Char → List Char
  | [] => []
  | c :: rest => if c = ':' then rest else afterFirstColon rest

/-- The content rule of the party scan: when the raw line has a colon,
the stripped text after the first colon of the stripped line; else the
stripped line. -/
def partyContent (line : List Char) : List Char :=
  if ':' ∈ line then pyStrip (afterFirstColon (pyStrip line)) else pyStrip line

/-- One line of the party scan of `extract_case_info`: the four role
keywords checked in order, each guarded by the stripped-length window. -/
def partyLine (line : List Char) : Option Item :=
  let lower := lowerL line
  let s := pyStrip line
  if isSub (litL ("plaintiff")) lower ∧ s.length < 100 ∧ 5 < s.length then
    some (litL ("Plaintiff"), partyContent line)
  else if isSub (litL ("defendant")) lower ∧ s.length < 100 ∧ 5 < s.length then
    some (litL ("Defendant"), partyContent line)
  else if isSub (litL ("petitioner")) lower ∧ s.length < 100 ∧ 5 < s.length then
    some (litL ("Petitioner"), partyContent line)
  else if isSub (litL ("respondent")) lower ∧ s.length < 100 ∧ 5 < s.length then
    some (litL ("Respondent"), partyContent line)
  else none

/-- The case-number pass of `extract_case_info`: every capture of the
three patterns over the whole text becomes a Case Number item. -/
def caseRegexItems (text : List Char) : List Item :=
  (caseNumberCaptures text).map (fun cap => (litL ("Case Number"), cap))

/-- The party pass of `extract_case_info`, restricted to the first 50 lines. -/
def casePartyItems (text : List Char) : List Item :=
  ((splitOnNl text).take 50).filterMap partyLine

/-- The court pass of `extract_case_info`: ORG entities whose lowercased
text contains court or tribunal. -/
def caseCourtItems (doc : Doc) : List Item :=
  doc.ents.filterMap
    (fun e =>
      if e.label = litL ("ORG")
          ∧ (isSub (litL ("court")) (lowerL e.text) ∨ isSub (litL ("tribunal")) (lowerL e.text)) then
        some (litL ("Court"), e.text)
      else none)

/-- The full collection stream of `extract_case_info`, in source order. -/
def caseStream (text : List Char) (doc : Doc) : List Item :=
  caseRegexItems text ++ casePartyItems text ++ caseCourtItems doc

/-- `DocumentAnalyzer.extract_case_info`: collect, deduplicate by the
(heading, content) pair, truncate to 15. -/
def extract_case_info (text : List Char) (doc : Doc) : List Item :=
  (dedupBy (fun it => it) (caseStream text doc) []).take 15

/-- The heading cascade of the tax-amounts line scan. -/
def taxHeading (lower : List Char) : List Char :=
  if isSub (litL ("penalty")) lower || isSub (litL ("penalties")) lower then litL ("Penalty")
  else if isSub (litL ("interest")) lower then litL ("Interest")
  else if isSub (litL ("unpaid")) lower || isSub (litL ("owed")) lower || isSub (litL ("due")) lower then
    litL ("Amount Due")
  else if isSub (litL ("refund")) lower then litL ("Refund")
  else if isSub (litL ("assessment")) lower then litL ("Assessment")
  else if isSub (litL ("payment")) lower then litL ("Payment")
  else if isSub (litL ("liability")) lower then litL ("Liability")
  else if isSub (litL ("deficiency")) lower then litL ("Deficiency")
  else litL ("Amount")

/-- One line of the tax-amounts line scan: length window, a tax keyword,
and a money pattern are all required; the heading comes from the cascade
and the content is the stripped line. -/
def taxScanLine (line : List Char) : Option Item :=
  let lower := lowerL line
  let s := pyStrip line
  if s.length < 10 ∨ 200 < s.length then none
  else if taxKeywords.any (fun kw => isSub kw lower)
      && moneyPatterns.any (fun p => reSearch p line) then
    some (taxHeading lower, s)
  else none

/-- The line pass of `extract_tax_amounts`. -/
def taxLineItems (text : List Char) : List Item :=
  (splitOnNl text).filterMap taxScanLine

/-- The heading cascade of the tax-amounts entity pass. -/
def taxEntHeading (cl : List Char) : List Char :=
  if isSub (litL ("penalty")) cl then litL ("Penalty")
  else if isSub (litL ("interest")) cl then litL ("Interest")
  else if isSub (litL ("due")) cl || isSub (litL ("owed")) cl then litL ("Amount Due")
  else litL ("Amount")

/-- The entity pass of `extract_tax_amounts`: MONEY entities with a
ten-token context window containing a tax keyword. -/
def taxEntityItems (doc : Doc) : List Item :=
  doc.ents.filterMap
    (fun ent =>
      if ent.label = litL ("MONEY") then
        let context := pyStrip (doc.sliceText (ent.start - 10) (min doc.tokLen (ent.stop + 10)))
        let cl := lowerL context
        if taxKeywords.any (fun kw => isSub kw cl) ∧ context.length < 200 then
          some (taxEntHeading cl, context)
        else none
      else none)

/-- The full collection stream of `extract_tax_amounts`, in source order. -/
def taxStream (text : List Char) (doc : Doc) : List Item :=
  taxLineItems text ++ taxEntityItems doc

/-- `DocumentAnalyzer.extract_tax_amounts`: collect, deduplicate by
content, truncate to 20. -/
def extract_tax_amounts (text : List Char) (doc : Doc) : List Item :=
  (dedupBy Prod.snd (taxStream text doc) []).take 20

/-- The heading cascade of the dates line scan. -/
def dateHeading (lower : List Char) : List Char :=
  if isSub (litL ("deadline")) lower then litL ("Deadline")
  else if isSub (litL ("due date")) lower || isSub (litL ("filing date")) lower then litL ("Filing Date")
  else if isSub (litL ("hearing")) lower then litL ("Hearing Date")
  else if isSub (litL ("trial")) lower then litL ("Trial Date")
  else if isSub (litL ("effective")) lower then litL ("Effective Date")
  else if isSub (litL ("tax year")) lower || isSub (litL ("taxable year")) lower then litL ("Tax Year")
  else litL ("Date")

/-- One line of the dates line scan: length window, a date keyword and a
date pattern required; heading from the cascade, content the stripped line. -/
def dateScanLine (line : List Char) : Option Item :=
  let lower := lowerL line
  let s := pyStrip line
  if s.length < 10 ∨ 200 < s.length then none
  else if dateKeywords.any (fun kw => isSub kw lower)
      && datePatterns.any (fun p => reSearch p line) then
    some (dateHeading lower, s)
  else none

/-- The line pass of `extract_dates`. -/
def dateLineItems (text : List Char) : List Item :=
  (splitOnNl text).filterMap dateScanLine

/-- The heading cascade of the dates entity pass. -/
def dateEntHeading (cl : List Char) : List Char :=
  if isSub (litL ("deadline")) cl then litL ("Deadline")
  else if isSub (litL ("filing")) cl then litL ("Filing Date")
  else litL ("Date")

/-- The entity pass of `extract_dates`: DATE entities with an
eight-token context window containing a date keyword. -/
def dateEntityItems (doc : Doc) : List Item :=
  doc.ents.filterMap
    (fun ent =>
      if ent.label = litL ("DATE") then
        let context := pyStrip (doc.sliceText (ent.start - 8) (min doc.tokLen (ent.stop + 8)))
        let cl := lowerL context
        if dateKeywords.any (fun kw => isSub kw cl) ∧ context.length < 200 then
          some (dateEntHeading cl, context)
        else none
      else none)

/-- The full collection stream of `extract_dates`, in source order. -/
def dateStream (text : List Char) (doc : Doc) : List Item :=
  dateLineItems text ++ dateEntityItems doc

/-- `DocumentAnalyzer.extract_dates`: collect, deduplicate by content,
truncate to 20. -/
def extract_dates (text : List Char) (doc : Doc) : List Item :=
  (dedupBy Prod.snd (dateStream text doc) []).take 20

/-- One line of the legal-references scan: length window, then the first
matching pattern of the ordered table emits its heading with the
stripped line. -/
def legalScanLine (line : List Char) : Option Item :=
  let s := pyStrip line
  if s.length < 10 ∨ 200 < s.length then none
  else legalPatterns.findSome? (fun ph => if reSearch ph.1 line then some (ph.2, s) else none)

/-- The line pass (and whole collection stream) of `extract_legal_references`. -/
def legalLineItems (text : List Char) : List Item :=
  (splitOnNl text).filterMap legalScanLine

/-- `DocumentAnalyzer.extract_legal_references`: collect, deduplicate by
content, truncate to 25. -/
def extract_legal_references (text : List Char) : List Item :=
  (dedupBy Prod.snd (legalLineItems text) []).take 25

/-- One line of the other-details scan: the (20, 150) length window and
the list-marker test produce a Key Point item. -/
def keyPointLine (line : List Char) : Option Item :=
  let s := pyStrip line
  if 20 < s.length ∧ s.length < 150 then
    if otherMarker s then some (litL ("Key Point"), s) else none
  else none

/-- The line pass of `extract_other_details`. -/
def otherLineItems (text : List Char) : List Item :=
  (splitOnNl text).filterMap keyPointLine

/-- The entity pass of `extract_other_details`, folded over the entity
list: PERSON and non-court ORG entities are appended while the length of
the accumulated result list (line items included) is below 30. -/
def otherEntityFold (init : List Item) (ents : List Ent) : List Item :=
  ents.foldl
    (fun acc ent =>
      if ent.label = litL ("PERSON") ∧ acc.length < 30 then
        acc ++ [(litL ("Person"), ent.text)]
      else if ent.label = litL ("ORG") ∧ acc.length < 30 then
        if isSub (litL ("court")) (lowerL ent.text) then acc
        else acc ++ [(litL ("Organization"), ent.text)]
      else acc)
    init

/-- The full collection stream of `extract_other_details`. -/
def otherStream (text : List Char) (doc : Doc) : List Item :=
  otherEntityFold (otherLineItems text) doc.ents

/-- `DocumentAnalyzer.extract_other_details`: collect, deduplicate by
content, truncate to 15. -/
def extract_other_details (text : List Char) (doc : Doc) : List Item :=
  (dedupBy Prod.snd (otherStream text doc) []).take 15

/-- The result of one analysis: the five category lists. -/
structure AnalysisResult where
  case_info : List Item
  tax_amounts : List Item
  dates : List Item
  legal_refs : List Item
  other : List Item

/-- The ValueError message raised on validation failure. -/
def validationMsg : List Char := litL ("Document text is too short or empty")

/-- `DocumentAnalyzer.analyze_document`: reject empty or short text,
truncate to the first million characters, run the recognizer once on the
truncated text, then run the five extractors on it. -/
def analyze_document (nlp : List Char → Doc) (text : List Char) :
    Except (List Char) AnalysisResult :=
  if text = [] ∨ (pyStrip text).length < 100 then .error validationMsg
  else
    let t := if 1000000 < text.length then text.take 1000000 else text
    let doc := nlp t
    .ok ⟨extract_case_info t doc, extract_tax_amounts t doc, extract_dates t doc,
         extract_legal_references t, extract_other_details t doc⟩

/-- Join lines with newline separators (inverse of `splitOnNl` on
newline-free lines); used to build concrete test documents. -/
def joinNl : List (List Char) → List Char
  | [] => []
  | [l] => l
  | l :: rest => l ++ '\n' :: joinNl rest

/-- A small document exercising all five categories, used as a concrete
witness input. -/
def demoText : List Char :=
  joinNl [litL ("Case No.: 2024-TX-00123"), litL ("Plaintiff: John Doe"),
    litL ("Penalty assessed: $1,250.00 due immediately"), litL ("Filing deadline: 04/15/2024"),
    litL ("See Section 501(c)(3) for exemption details"),
    litL ("1. This is an important key point to note here")]

/-- Twenty distinct date lines followed by the deadline scenario line:
the earlier lines fill the 20-item cap of the dates category. -/
def cexC6Text : List Char :=
  joinNl ((litL ("ABCDEFGHIJKLMNOPQRST")).map
      (fun c => litL ("Hearing scheduled 01/01/2024 room ") ++ [c])
    ++ [litL ("Filing deadline: 04/15/2024")])

/-- Fifteen distinct case-number lines followed by the case-number
scenario line: the earlier lines fill the 15-item cap of case_info. -/
def cexC7Text : List Char :=
  joinNl ((litL ("ABCDEFGHIJKLMNO")).map
      (fun c => litL ("Case No.: 2024-TX-000") ++ [c])
    ++ [litL ("Case No.: 2024-TX-00123")])

/-- Twenty-five distinct legal-reference lines followed by the section
scenario line: the earlier lines fill the 25-item cap of legal_refs. -/
def cexC8Text : List Char :=
  joinNl ((litL ("ABCDEFGHIJKLMNOPQRSTUVWXY")).map
      (fun c => litL ("See Section 12 rule item ") ++ [c])
    ++ [litL ("See Section 501(c)(3) for exemption details")])

/-- One key-point line, repeated thirty times: the line scan alone fills
the 30-item running gate of the other-details entity step, while
deduplication collapses all thirty to one item. -/
def c4Line : List Char := litL ("1. duplicated key point line for gate test")

/-- The thirty-fold repetition of `c4Line`. -/
def cexC4Text : List Char := joinNl (List.replicate 30 c4Line)

/-- A document with a single PERSON entity. -/
def cexC4Doc : Doc := ⟨[⟨litL ("PERSON"), litL ("John Smith"), 3, 5⟩], 100, fun _ _ => []⟩

/-- A first-fifty-lines document whose party line is a bare role keyword
and colon. -/
def c9Text : List Char := litL ("Plaintiff:") ++ '\n' :: List.replicate 120 'z'

/-- The line whose only occurrence of the keyword tax is inside the word
syntax. -/
def c10Line : List Char := litL ("Regarding syntax: $5,000 noted")

/-- A valid document around `c10Line`. -/
def c10Text : List Char := c10Line ++ '\n' :: List.replicate 100 'z'

/-- A valid document whose tax line has stripped length exactly ten. -/
def cexC5Text : List Char := litL ("tax $12.50") ++ '\n' :: List.replicate 100 'z'

theorem dedupBy_sublist {α κ : Type} [DecidableEq κ] (key : α → κ) :
    ∀ (l : List α) (seen : List κ), List.Sublist (dedupBy key l seen) l := by
  intro l
  induction l with
  | nil => intro seen; simp [dedupBy]
  | cons a rest ih =>
    intro seen
    simp only [dedupBy]
    split
    · exact (ih seen).trans (List.sublist_cons_self a rest)
    · exact (ih (key a :: seen)).cons₂ a

theorem mem_dedupBy_not_seen {α κ : Type} [DecidableEq κ] (key : α → κ) :
    ∀ (l : List α) (seen : List κ) (a : α), a ∈ dedupBy key l seen → key a ∉ seen := by
  intro l
  induction l with
  | nil => intro seen a h; simp [dedupBy] at h
  | cons x rest ih =>
    intro seen a h
    simp only [dedupBy] at h
    split at h
    · exact ih seen a h
    · rcases List.mem_cons.mp h with h1 | h2
      · subst h1; assumption
      · have := ih (key x :: seen) a h2
        exact fun hs => this (List.mem_cons_of_mem _ hs)

theorem dedupBy_pairwise {α κ : Type} [DecidableEq κ] (key : α → κ) :
    ∀ (l : List α) (seen : List κ),
      (dedupBy key l seen).Pairwise (fun a b => key a ≠ key b) := by
  intro l
  induction l with
  | nil => intro seen; simp [dedupBy]
  | cons x rest ih =>
    intro seen
    simp only [dedupBy]
    split
    · exact ih seen
    · refine List.Pairwise.cons ?_ (ih (key x :: seen))
      intro b hb
      have := mem_dedupBy_not_seen key rest (key x :: seen) b hb
      intro hxb
      exact this (by simp [hxb.symm])

theorem dedupBy_first_occ {α κ : Type} [DecidableEq κ] (key : α → κ) :
    ∀ (l : List α) (seen : List κ) (a : α), a ∈ dedupBy key l seen →
      ∃ l1 l2, l = l1 ++ a :: l2 ∧ ∀ b ∈ l1, key b ≠ key a := by
  intro l
  induction l with
  | nil => intro seen a h; simp [dedupBy] at h
  | cons x rest ih =>
    intro seen a h
    have hns := mem_dedupBy_not_seen key (x :: rest) seen a h
    simp only [dedupBy] at h
    split at h
    · rename_i hseen
      obtain ⟨l1, l2, heq, hkeys⟩ := ih seen a h
      refine ⟨x :: l1, l2, by simp [heq], ?_⟩
      intro b hb
      rcases List.mem_cons.mp hb with h1 | h2
      · subst h1
        intro hba
        exact hns (hba ▸ hseen)
      · exact hkeys b h2
    · rename_i hseen
      rcases List.mem_cons.mp h with h1 | h2
      · exact ⟨[], rest, by simp [h1], by simp⟩
      · have hans := mem_dedupBy_not_seen key rest (key x :: seen) a h2
        obtain ⟨l1, l2, heq, hkeys⟩ := ih (key x :: seen) a h2
        refine ⟨x :: l1, l2, by simp [heq], ?_⟩
        intro b hb
        rcases List.mem_cons.mp hb with h1 | h2
        · subst h1
          intro hba
          exact hans (by simp [hba])
        · exact hkeys b h2

theorem mem_take_of_idxOf_lt {α : Type} [DecidableEq α] :
    ∀ (l : List α) (a : α) (n : Nat), a ∈ l → idxOf a l < n → a ∈ l.take n := by
  intro l
  induction l with
  | nil => intro a n h; simp at h
  | cons x rest ih =>
    intro a n hmem hidx
    simp only [idxOf] at hidx
    split at hidx
    · rename_i hxa
      match n, hidx with
      | m + 1, _ => simp [List.take_succ_cons, hxa]
    · rename_i hxa
      match n, hidx with
      | m + 1, hidx =>
        have hmem2 : a ∈ rest := by
          rcases List.mem_cons.mp hmem with h1 | h2
          · exact absurd h1.symm hxa
          · exact h2
        have := ih a m hmem2 (by omega)
        simp [List.take_succ_cons, this]

theorem otherEntityFold_init_sub :
    ∀ (ents : List Ent) (init : List Item),
      ∃ es, otherEntityFold init ents = init ++ es := by
  intro ents
  induction ents with
  | nil => intro init; exact ⟨[], by simp [otherEntityFold]⟩
  | cons e es ih =>
    intro init
    simp only [otherEntityFold, List.foldl_cons]
    split
    · obtain ⟨tailE, htail⟩ := ih (init ++ [(litL ("Person"), e.text)])
      exact ⟨(litL ("Person"), e.text) :: tailE, by simpa [otherEntityFold] using htail⟩
    · split
      · split
        · exact ih init
        · obtain ⟨tailE, htail⟩ := ih (init ++ [(litL ("Organization"), e.text)])
          exact ⟨(litL ("Organization"), e.text) :: tailE, by simpa [otherEntityFold] using htail⟩
      · exact ih init

theorem otherEntityFold_ge30 :
    ∀ (ents : List Ent) (init : List Item), 30 ≤ init.length →
      otherEntityFold init ents = init := by
  intro ents
  induction ents with
  | nil => intro init _; simp [otherEntityFold]
  | cons e es ih =>
    intro init hlen
    simp only [otherEntityFold, List.foldl_cons]
    have h1 : ¬ (e.label = litL ("PERSON") ∧ init.length < 30) := by
      rintro ⟨_, hlt⟩; omega
    have h2 : ¬ (e.label = litL ("ORG") ∧ init.length < 30) := by
      rintro ⟨_, hlt⟩; omega
    rw [if_neg h1, if_neg h2]
    exact ih init hlen

theorem dropWhile_rep_append {p : Char → Bool} {c : Char} (h : p c = true) :
    ∀ (n : Nat) (l : List Char),
      List.dropWhile p (List.replicate n c ++ l) = List.dropWhile p l := by
  intro n
  induction n with
  | zero => intro l; simp
  | succ m ih => intro l; simp [List.replicate_succ, List.dropWhile_cons, h, ih]

theorem dropWhile_rep_nil {p : Char → Bool} {c : Char} (h : p c = true) :
    ∀ (n : Nat), List.dropWhile p (List.replicate n c) = [] := by
  intro n
  have := dropWhile_rep_append h n []
  simpa using this

theorem dropWhile_rep_self {p : Char → Bool} {c : Char} (h : p c = false) :
    ∀ (n : Nat), List.dropWhile p (List.replicate n c) = List.replicate n c := by
  intro n
  cases n with
  | zero => simp
  | succ m => simp [List.replicate_succ, List.dropWhile_cons, h]

theorem pyStrip_rep {c : Char} (h : pyIsSpace c = false) (n : Nat) :
    pyStrip (List.replicate n c) = List.replicate n c := by
  simp only [pyStrip, pyDropStart, pyDropEnd, dropWhile_rep_self h,
    List.reverse_replicate]

theorem pyStrip_spaces_append (n : Nat) (l : List Char) :
    pyStrip (List.replicate n ' ' ++ l) = pyStrip l := by
  simp only [pyStrip, pyDropStart, dropWhile_rep_append (show pyIsSpace ' ' = true from rfl)]

theorem pyStrip_all_spaces (n : Nat) : pyStrip (List.replicate n ' ') = [] := by
  simp [pyStrip, pyDropStart, pyDropEnd, dropWhile_rep_nil (show pyIsSpace ' ' = true from rfl)]

/-- C1: analyze_document fails with the validation error exactly when the
text is empty or its stripped length is below 100; the string short is
rejected with the ValueError message, and any text of stripped length at
least 100 produces a result. -/
theorem C1_validation : ∀ (nlp : List Char → Doc) (text : List Char),
    ((∃ e, analyze_document nlp text = Except.error e)
        ↔ (text = [] ∨ (pyStrip text).length < 100))
    ∧ analyze_document nlp (litL ("short")) = Except.error validationMsg
    ∧ (100 ≤ (pyStrip text).length → ∃ r, analyze_document nlp text = Except.ok r) := by
  intro nlp text
  refine ⟨?_, ?_, ?_⟩
  · by_cases hcond : text = [] ∨ (pyStrip text).length < 100
    · constructor
      · intro _; exact hcond
      · intro _
        exact ⟨validationMsg, by simp only [analyze_document, if_pos hcond]⟩
    · constructor
      · intro ⟨e, he⟩
        simp only [analyze_document, if_neg hcond] at he
        exact Except.noConfusion he
      · intro h; exact absurd h hcond
  · have hc : litL ("short") = [] ∨ (pyStrip (litL ("short"))).length < 100 := by
      right; decide
    simp only [analyze_document, if_pos hc]
  · intro hlen
    have hcond : ¬ (text = [] ∨ (pyStrip text).length < 100) := by
      rintro (h1 | h2)
      · subst h1; simp [pyStrip, pyDropStart, pyDropEnd] at hlen
      · omega
    cases hres : analyze_document nlp text with
    | error e =>
      exfalso
      simp only [analyze_document, if_neg hcond] at hres
      exact Except.noConfusion hres
    | ok r => exact ⟨r, rfl⟩

/-- Witness for C1 at a concrete text of stripped length 101. -/
theorem C1_validation_witness :
    ∃ r, analyze_document nlpEmpty (List.replicate 101 'a') = Except.ok r :=
  (C1_validation nlpEmpty (List.replicate 101 'a')).2.2
    (by rw [pyStrip_rep (by decide)]; simp)

/-- A text longer than one million characters that passes validation even
though its first million characters are all spaces. -/
def cexC2Text : List Char := List.replicate 1000001 ' ' ++ List.replicate 100 'a'

theorem cexC2Text_strip : pyStrip cexC2Text = List.replicate 100 'a' := by
  rw [cexC2Text, pyStrip_spaces_append, pyStrip_rep (by decide)]

theorem cexC2Text_take : cexC2Text.take 1000000 = List.replicate 1000000 ' ' := by
  rw [cexC2Text, List.take_append_eq_append_take, List.take_replicate]
  norm_num

/-- C2 counterexample: this text is longer than one million characters
and passes validation, yet analyzing it does not agree with analyzing
its first million characters, because that prefix is all whitespace and
is itself rejected by validation. -/
theorem C2_trunc_cex :
    1000000 < cexC2Text.length
    ∧ (∃ r, analyze_document nlpEmpty cexC2Text = Except.ok r)
    ∧ analyze_document nlpEmpty (cexC2Text.take 1000000) = Except.error validationMsg
    ∧ analyze_document nlpEmpty cexC2Text ≠ analyze_document nlpEmpty (cexC2Text.take 1000000) := by
  have hlen : 1000000 < cexC2Text.length := by
    rw [cexC2Text, List.length_append, List.length_replicate, List.length_replicate]
    norm_num
  have hok : ∃ r, analyze_document nlpEmpty cexC2Text = Except.ok r := by
    refine (C1_validation nlpEmpty cexC2Text).2.2 ?_
    rw [cexC2Text_strip, List.length_replicate]
  have herr : analyze_document nlpEmpty (cexC2Text.take 1000000) = Except.error validationMsg := by
    have hc : cexC2Text.take 1000000 = [] ∨ (pyStrip (cexC2Text.take 1000000)).length < 100 := by
      right
      rw [cexC2Text_take, pyStrip_all_spaces]
      norm_num
    simp only [analyze_document, if_pos hc]
  refine ⟨hlen, hok, herr, ?_⟩
  obtain ⟨r, hr⟩ := hok
  rw [hr, herr]
  exact fun h => Except.noConfusion h

/-- C2 amended: for a text longer than one million characters that passes
validation, the analysis agrees with analyzing only the first million
characters provided that prefix itself passes validation; the result is
computed exclusively from the truncated text and its recognizer output. -/
theorem C2_trunc_amended : ∀ (nlp : List Char → Doc) (text : List Char),
    1000000 < text.length →
    100 ≤ (pyStrip text).length →
    100 ≤ (pyStrip (text.take 1000000)).length →
    analyze_document nlp text = analyze_document nlp (text.take 1000000) := by
  intro nlp text hlen hval hval2
  have hne : ¬ (text = [] ∨ (pyStrip text).length < 100) := by
    rintro (h1 | h2)
    · subst h1; simp at hlen
    · omega
  have hne2 : ¬ (text.take 1000000 = [] ∨ (pyStrip (text.take 1000000)).length < 100) := by
    rintro (h1 | h2)
    · rw [h1] at hval2
      simp [pyStrip, pyDropStart, pyDropEnd] at hval2
    · omega
  have htklen : (text.take 1000000).length = 1000000 := by
    rw [List.length_take]; omega
  have hnotlt : ¬ (1000000 < (text.take 1000000).length) := by omega
  simp only [analyze_document, if_neg hne, if_neg hne2, if_pos hlen, if_neg hnotlt]

/-- Witness for the amended C2 at a concrete text of 1000001 letters. -/
theorem C2_trunc_amended_witness :
    analyze_document nlpEmpty (List.replicate 1000001 'a')
      = analyze_document nlpEmpty ((List.replicate 1000001 'a').take 1000000) := by
  refine C2_trunc_amended nlpEmpty (List.replicate 1000001 'a')
    (by rw [List.length_replicate]; norm_num) ?_ ?_
  · rw [pyStrip_rep (by decide), List.length_replicate]; norm_num
  · rw [List.take_replicate, show min 1000000 1000001 = 1000000 by norm_num,
      pyStrip_rep (by decide), List.length_replicate]
    norm_num

theorem take_dedup_spec {α κ : Type} [DecidableEq κ] (key : α → κ) (s : List α) (cap : Nat) :
    ((dedupBy key s []).take cap).Pairwise (fun a b => key a ≠ key b)
    ∧ ((dedupBy key s []).take cap).length ≤ cap
    ∧ List.Sublist ((dedupBy key s []).take cap) s
    ∧ ∀ a, a ∈ (dedupBy key s []).take cap →
        ∃ l1 l2, s = l1 ++ a :: l2 ∧ ∀ b ∈ l1, key b ≠ key a := by
  refine ⟨?_, ?_, ?_, ?_⟩
  · exact (dedupBy_pairwise key s []).sublist (List.take_sublist cap _)
  · rw [List.length_take]; exact min_le_left _ _
  · exact (List.take_sublist cap _).trans (dedupBy_sublist key s [])
  · intro a ha
    exact dedupBy_first_occ key s [] a ((List.take_sublist cap _).subset ha)

/-- C3: every category output is duplicate-free under its dedup key (the
full pair for case_info, the content for the other four), its length is
at most the category cap (15, 20, 20, 25, 15), and it is an
order-preserving selection of the first occurrence of each key from the
collection stream, in which the regex and line scans precede the entity
pass. -/
theorem C3_dedup_cap_order : ∀ (text : List Char) (doc : Doc),
    ((extract_case_info text doc).Pairwise (fun a b => a ≠ b)
      ∧ (extract_case_info text doc).length ≤ 15
      ∧ List.Sublist (extract_case_info text doc)
          (caseRegexItems text ++ casePartyItems text ++ caseCourtItems doc)
      ∧ ∀ a, a ∈ extract_case_info text doc →
          ∃ l1 l2, caseRegexItems text ++ casePartyItems text ++ caseCourtItems doc
              = l1 ++ a :: l2 ∧ ∀ b ∈ l1, b ≠ a)
    ∧ ((extract_tax_amounts text doc).Pairwise (fun a b => a.2 ≠ b.2)
      ∧ (extract_tax_amounts text doc).length ≤ 20
      ∧ List.Sublist (extract_tax_amounts text doc) (taxLineItems text ++ taxEntityItems doc)
      ∧ ∀ a, a ∈ extract_tax_amounts text doc →
          ∃ l1 l2, taxLineItems text ++ taxEntityItems doc = l1 ++ a :: l2
              ∧ ∀ b ∈ l1, b.2 ≠ a.2)
    ∧ ((extract_dates text doc).Pairwise (fun a b => a.2 ≠ b.2)
      ∧ (extract_dates text doc).length ≤ 20
      ∧ List.Sublist (extract_dates text doc) (dateLineItems text ++ dateEntityItems doc)
      ∧ ∀ a, a ∈ extract_dates text doc →
          ∃ l1 l2, dateLineItems text ++ dateEntityItems doc = l1 ++ a :: l2
              ∧ ∀ b ∈ l1, b.2 ≠ a.2)
    ∧ ((extract_legal_references text).Pairwise (fun a b => a.2 ≠ b.2)
      ∧ (extract_legal_references text).length ≤ 25
      ∧ List.Sublist (extract_legal_references text) (legalLineItems text)
      ∧ ∀ a, a ∈ extract_legal_references text →
          ∃ l1 l2, legalLineItems text = l1 ++ a :: l2 ∧ ∀ b ∈ l1, b.2 ≠ a.2)
    ∧ ((extract_other_details text doc).Pairwise (fun a b => a.2 ≠ b.2)
      ∧ (extract_other_details text doc).length ≤ 15
      ∧ List.Sublist (extract_other_details text doc) (otherStream text doc)
      ∧ (∃ es, otherStream text doc = otherLineItems text ++ es)
      ∧ ∀ a, a ∈ extract_other_details text doc →
          ∃ l1 l2, otherStream text doc = l1 ++ a :: l2 ∧ ∀ b ∈ l1, b.2 ≠ a.2) := by
  intro text doc
  refine ⟨?_, ?_, ?_, ?_, ?_⟩
  · exact take_dedup_spec (fun it => it) (caseStream text doc) 15
  · exact take_dedup_spec Prod.snd (taxStream text doc) 20
  · exact take_dedup_spec Prod.snd (dateStream text doc) 20
  · exact take_dedup_spec Prod.snd (legalLineItems text) 25
  · obtain ⟨h1, h2, h3, h4⟩ := take_dedup_spec Prod.snd (otherStream text doc) 15
    exact ⟨h1, h2, h3, otherEntityFold_init_sub doc.ents (otherLineItems text), h4⟩

/-- Witness for C3: at the demo document, one item per category is in the
output, and the first-occurrence decomposition of the stream exists for it. -/
theorem C3_dedup_cap_order_witness :
    (∃ l1 l2, caseRegexItems demoText ++ casePartyItems demoText ++ caseCourtItems emptyDoc
        = l1 ++ (litL ("Case Number"), litL ("2024-TX-00123")) :: l2
        ∧ ∀ b ∈ l1, b ≠ (litL ("Case Number"), litL ("2024-TX-00123")))
    ∧ (∃ l1 l2, taxLineItems demoText ++ taxEntityItems emptyDoc
        = l1 ++ (litL ("Penalty"), litL ("Penalty assessed: $1,250.00 due immediately")) :: l2
        ∧ ∀ b ∈ l1, b.2 ≠ litL ("Penalty assessed: $1,250.00 due immediately"))
    ∧ (∃ l1 l2, dateLineItems demoText ++ dateEntityItems emptyDoc
        = l1 ++ (litL ("Deadline"), litL ("Filing deadline: 04/15/2024")) :: l2
        ∧ ∀ b ∈ l1, b.2 ≠ litL ("Filing deadline: 04/15/2024"))
    ∧ (∃ l1 l2, legalLineItems demoText
        = l1 ++ (litL ("Section"), litL ("See Section 501(c)(3) for exemption details")) :: l2
        ∧ ∀ b ∈ l1, b.2 ≠ litL ("See Section 501(c)(3) for exemption details"))
    ∧ (∃ l1 l2, otherStream demoText emptyDoc
        = l1 ++ (litL ("Key Point"), litL ("1. This is an important key point to note here")) :: l2
        ∧ ∀ b ∈ l1, b.2 ≠ litL ("1. This is an important key point to note here")) := by
  obtain ⟨hc, ht, hd, hl, ho⟩ := C3_dedup_cap_order demoText emptyDoc
  refine ⟨hc.2.2.2 _ ?_, ht.2.2.2 _ ?_, hd.2.2.2 _ ?_, hl.2.2.2 _ ?_, ho.2.2.2.2 _ ?_⟩
  · decide
  · decide
  · decide
  · decide
  · decide

/-- C4 counterexample: thirty duplicated key-point lines fill the running
gate of the entity step before any entity is seen, so the single PERSON
entity is never added, even though zero entity-derived items were
collected; after deduplication the output is one Key Point item.  Under
the claim (gate counting only entity-derived items) the Person item
would have been added and would survive dedup and the 15-cap. -/
theorem C4_gate_cex :
    100 ≤ (pyStrip cexC4Text).length
    ∧ (otherLineItems cexC4Text).length = 30
    ∧ cexC4Doc.ents = [⟨litL ("PERSON"), litL ("John Smith"), 3, 5⟩]
    ∧ extract_other_details cexC4Text cexC4Doc = [(litL ("Key Point"), c4Line)]
    ∧ (litL ("Person"), litL ("John Smith")) ∉ extract_other_details cexC4Text cexC4Doc := by
  decide

/-- C4 amended: the running 30-item gate of the other-details entity scan
counts every collected item, the line-scan Key Points included: once the
accumulated list reaches 30 items the entity step adds nothing, so when
the line scan alone yields 30 items the output is computed from the line
items only. -/
theorem C4_gate_amended :
    (∀ (ents : List Ent) (init : List Item), 30 ≤ init.length →
        otherEntityFold init ents = init)
    ∧ ∀ (text : List Char) (doc : Doc), 30 ≤ (otherLineItems text).length →
        extract_other_details text doc
          = (dedupBy Prod.snd (otherLineItems text) []).take 15 := by
  refine ⟨fun ents init h => otherEntityFold_ge30 ents init h, ?_⟩
  intro text doc h
  unfold extract_other_details otherStream
  rw [otherEntityFold_ge30 doc.ents (otherLineItems text) h]

/-- Witness for the amended C4 at the thirty-line document and a
saturated accumulator. -/
theorem C4_gate_amended_witness :
    otherEntityFold (List.replicate 30 (litL ("Key Point"), c4Line)) cexC4Doc.ents
        = List.replicate 30 (litL ("Key Point"), c4Line)
    ∧ extract_other_details cexC4Text cexC4Doc
        = (dedupBy Prod.snd (otherLineItems cexC4Text) []).take 15 := by
  refine ⟨C4_gate_amended.1 cexC4Doc.ents _ ?_, C4_gate_amended.2 cexC4Text cexC4Doc ?_⟩
  · rw [List.length_replicate]
  · decide

/-- C5 counterexample: the line tax dollar-twelve-fifty has stripped
length exactly 10, which is not strictly between 10 and 200, yet the
scan emits it (and on a valid document it reaches the tax_amounts
category), because the source keeps lines of length 10 and 200. -/
theorem C5_taxline_cex :
    (pyStrip (litL ("tax $12.50"))).length = 10
    ∧ ¬ 10 < (pyStrip (litL ("tax $12.50"))).length
    ∧ taxScanLine (litL ("tax $12.50")) = some (litL ("Amount"), litL ("tax $12.50"))
    ∧ 100 ≤ (pyStrip cexC5Text).length
    ∧ (litL ("Amount"), litL ("tax $12.50")) ∈ extract_tax_amounts cexC5Text emptyDoc := by
  decide
/-- C5 amended: a line is emitted by the tax-amounts scan exactly when
its stripped length is between 10 and 200 inclusive, it contains a tax
keyword and matches a money pattern; the content is the stripped line
and the heading follows the stated priority cascade; the penalty
scenario line is emitted with heading Penalty; and a line of stripped
length 8 is never emitted. -/
theorem C5_taxline_amended : ∀ (line : List Char),
    ((taxScanLine line).isSome = true ↔
      (10 ≤ (pyStrip line).length ∧ (pyStrip line).length ≤ 200
        ∧ (∃ kw ∈ taxKeywords, isSub kw (lowerL line) = true)
        ∧ (∃ p ∈ moneyPatterns, reSearch p line = true)))
    ∧ (∀ h c, taxScanLine line = some (h, c) → h = taxHeading (lowerL line) ∧ c = pyStrip line)
    ∧ (isSub (litL ("penalty")) (lowerL line) = true ∨ isSub (litL ("penalties")) (lowerL line) = true →
        taxHeading (lowerL line) = litL ("Penalty"))
    ∧ (isSub (litL ("penalty")) (lowerL line) = false → isSub (litL ("penalties")) (lowerL line) = false →
        isSub (litL ("interest")) (lowerL line) = true →
        taxHeading (lowerL line) = litL ("Interest"))
    ∧ (isSub (litL ("penalty")) (lowerL line) = false → isSub (litL ("penalties")) (lowerL line) = false →
        isSub (litL ("interest")) (lowerL line) = false →
        (isSub (litL ("unpaid")) (lowerL line) = true ∨ isSub (litL ("owed")) (lowerL line) = true
          ∨ isSub (litL ("due")) (lowerL line) = true) →
        taxHeading (lowerL line) = litL ("Amount Due"))
    ∧ (isSub (litL ("penalty")) (lowerL line) = false → isSub (litL ("penalties")) (lowerL line) = false →
        isSub (litL ("interest")) (lowerL line) = false → isSub (litL ("unpaid")) (lowerL line) = false →
        isSub (litL ("owed")) (lowerL line) = false → isSub (litL ("due")) (lowerL line) = false →
        isSub (litL ("refund")) (lowerL line) = true →
        taxHeading (lowerL line) = litL ("Refund"))
    ∧ (isSub (litL ("penalty")) (lowerL line) = false → isSub (litL ("penalties")) (lowerL line) = false →
        isSub (litL ("interest")) (lowerL line) = false → isSub (litL ("unpaid")) (lowerL line) = false →
        isSub (litL ("owed")) (lowerL line) = false → isSub (litL ("due")) (lowerL line) = false →
        isSub (litL ("refund")) (lowerL line) = false →
        isSub (litL ("assessment")) (lowerL line) = true →
        taxHeading (lowerL line) = litL ("Assessment"))
    ∧ (isSub (litL ("penalty")) (lowerL line) = false → isSub (litL ("penalties")) (lowerL line) = false →
        isSub (litL ("interest")) (lowerL line) = false → isSub (litL ("unpaid")) (lowerL line) = false →
        isSub (litL ("owed")) (lowerL line) = false → isSub (litL ("due")) (lowerL line) = false →
        isSub (litL ("refund")) (lowerL line) = false → isSub (litL ("assessment")) (lowerL line) = false →
        isSub (litL ("payment")) (lowerL line) = true →
        taxHeading (lowerL line) = litL ("Payment"))
    ∧ (isSub (litL ("penalty")) (lowerL line) = false → isSub (litL ("penalties")) (lowerL line) = false →
        isSub (litL ("interest")) (lowerL line) = false → isSub (litL ("unpaid")) (lowerL line) = false →
        isSub (litL ("owed")) (lowerL line) = false → isSub (litL ("due")) (lowerL line) = false →
        isSub (litL ("refund")) (lowerL line) = false → isSub (litL ("assessment")) (lowerL line) = false →
        isSub (litL ("payment")) (lowerL line) = false →
        isSub (litL ("liability")) (lowerL line) = true →
        taxHeading (lowerL line) = litL ("Liability"))
    ∧ (isSub (litL ("penalty")) (lowerL line) = false → isSub (litL ("penalties")) (lowerL line) = false →
        isSub (litL ("interest")) (lowerL line) = false → isSub (litL ("unpaid")) (lowerL line) = false →
        isSub (litL ("owed")) (lowerL line) = false → isSub (litL ("due")) (lowerL line) = false →
        isSub (litL ("refund")) (lowerL line) = false → isSub (litL ("assessment")) (lowerL line) = false →
        isSub (litL ("payment")) (lowerL line) = false → isSub (litL ("liability")) (lowerL line) = false →
        isSub (litL ("deficiency")) (lowerL line) = true →
        taxHeading (lowerL line) = litL ("Deficiency"))
    ∧ (isSub (litL ("penalty")) (lowerL line) = false → isSub (litL ("penalties")) (lowerL line) = false →
        isSub (litL ("interest")) (lowerL line) = false → isSub (litL ("unpaid")) (lowerL line) = false →
        isSub (litL ("owed")) (lowerL line) = false → isSub (litL ("due")) (lowerL line) = false →
        isSub (litL ("refund")) (lowerL line) = false → isSub (litL ("assessment")) (lowerL line) = false →
        isSub (litL ("payment")) (lowerL line) = false → isSub (litL ("liability")) (lowerL line) = false →
        isSub (litL ("deficiency")) (lowerL line) = false →
        taxHeading (lowerL line) = litL ("Amount"))
    ∧ taxScanLine (litL ("Penalty assessed: $1,250.00 due immediately"))
        = some (litL ("Penalty"), litL ("Penalty assessed: $1,250.00 due immediately"))
    ∧ ((pyStrip line).length = 8 → taxScanLine line = none) := by
  intro line
  refine ⟨?_, ?_, ?_, ?_, ?_, ?_, ?_, ?_, ?_, ?_, ?_, by decide, ?_⟩
  · simp only [taxScanLine]
    split
    · rename_i hlen
      simp only [Option.isSome_none, Bool.false_eq_true, false_iff]
      rintro ⟨h1, h2, _, _⟩
      omega
    · rename_i hlen
      split
      · rename_i hcond
        rw [Bool.and_eq_true, List.any_eq_true, List.any_eq_true] at hcond
        simp only [Option.isSome_some, true_iff]
        exact ⟨by omega, by omega, hcond.1, hcond.2⟩
      · rename_i hcond
        rw [Bool.and_eq_true] at hcond
        simp only [Option.isSome_none, Bool.false_eq_true, false_iff]
        rintro ⟨_, _, hkw, hpat⟩
        exact hcond ⟨List.any_eq_true.mpr hkw, List.any_eq_true.mpr hpat⟩
  · intro h c heq
    simp only [taxScanLine] at heq
    split at heq
    · exact Option.noConfusion heq
    · split at heq
      · injection heq with heq2
        injection heq2 with hh hc
        exact ⟨hh.symm, hc.symm⟩
      · exact Option.noConfusion heq
  · rintro (h | h) <;> simp [taxHeading, h]
  · intro h1 h2 h3; simp [taxHeading, h1, h2, h3]
  · intro h1 h2 h3 h4
    rcases h4 with h | h | h <;> simp [taxHeading, h1, h2, h3, h]
  · intro h1 h2 h3 h4 h5 h6 h7; simp [taxHeading, h1, h2, h3, h4, h5, h6, h7]
  · intro h1 h2 h3 h4 h5 h6 h7 h8; simp [taxHeading, h1, h2, h3, h4, h5, h6, h7, h8]
  · intro h1 h2 h3 h4 h5 h6 h7 h8 h9; simp [taxHeading, h1, h2, h3, h4, h5, h6, h7, h8, h9]
  · intro h1 h2 h3 h4 h5 h6 h7 h8 h9 h10
    simp [taxHeading, h1, h2, h3, h4, h5, h6, h7, h8, h9, h10]
  · intro h1 h2 h3 h4 h5 h6 h7 h8 h9 h10 h11
    simp [taxHeading, h1, h2, h3, h4, h5, h6, h7, h8, h9, h10, h11]
  · intro h1 h2 h3 h4 h5 h6 h7 h8 h9 h10 h11
    simp [taxHeading, h1, h2, h3, h4, h5, h6, h7, h8, h9, h10, h11]
  · intro h8
    simp only [taxScanLine]
    rw [if_pos (Or.inl (by omega))]

/-- Witness for the amended C5: the heading-and-content rule applied to
the emitted penalty scenario line, and the length floor applied to a
stripped length 8 line. -/
theorem C5_taxline_amended_witness :
    (litL ("Penalty") = taxHeading (lowerL (litL ("Penalty assessed: $1,250.00 due immediately")))
      ∧ litL ("Penalty assessed: $1,250.00 due immediately")
          = pyStrip (litL ("Penalty assessed: $1,250.00 due immediately")))
    ∧ taxScanLine (litL ("pnlty $5 ")) = none := by
  refine ⟨(C5_taxline_amended (litL ("Penalty assessed: $1,250.00 due immediately"))).2.1 _ _ ?_,
    (C5_taxline_amended (litL ("pnlty $5 "))).2.2.2.2.2.2.2.2.2.2.2.2 ?_⟩
  · decide
  · decide

/-- C6 counterexample: a valid document containing the scenario line
whose twenty earlier distinct date lines exhaust the 20-item cap, so the
Deadline item is evicted from the dates category. -/
theorem C6_deadline_cex :
    100 ≤ (pyStrip cexC6Text).length
    ∧ litL ("Filing deadline: 04/15/2024") ∈ splitOnNl cexC6Text
    ∧ (litL ("Deadline"), litL ("Filing deadline: 04/15/2024")) ∉ extract_dates cexC6Text emptyDoc := by
  decide

/-- C6 amended: an emitted date line carries the cascade heading and the
stripped line as content, with deadline taking priority over due date
and filing date; a document containing the scenario line emits the
Deadline item into the line pass, and any item among the first twenty of
the deduplicated stream reaches the dates category. -/
theorem C6_deadline_amended : ∀ (line : List Char),
    (∀ h c, dateScanLine line = some (h, c) → h = dateHeading (lowerL line) ∧ c = pyStrip line)
    ∧ (isSub (litL ("deadline")) (lowerL line) = true →
        dateHeading (lowerL line) = litL ("Deadline"))
    ∧ (isSub (litL ("deadline")) (lowerL line) = false →
        (isSub (litL ("due date")) (lowerL line) = true ∨ isSub (litL ("filing date")) (lowerL line) = true) →
        dateHeading (lowerL line) = litL ("Filing Date"))
    ∧ (isSub (litL ("deadline")) (lowerL line) = false → isSub (litL ("due date")) (lowerL line) = false →
        isSub (litL ("filing date")) (lowerL line) = false →
        isSub (litL ("hearing")) (lowerL line) = true →
        dateHeading (lowerL line) = litL ("Hearing Date"))
    ∧ (isSub (litL ("deadline")) (lowerL line) = false → isSub (litL ("due date")) (lowerL line) = false →
        isSub (litL ("filing date")) (lowerL line) = false → isSub (litL ("hearing")) (lowerL line) = false →
        isSub (litL ("trial")) (lowerL line) = true →
        dateHeading (lowerL line) = litL ("Trial Date"))
    ∧ (isSub (litL ("deadline")) (lowerL line) = false → isSub (litL ("due date")) (lowerL line) = false →
        isSub (litL ("filing date")) (lowerL line) = false → isSub (litL ("hearing")) (lowerL line) = false →
        isSub (litL ("trial")) (lowerL line) = false →
        isSub (litL ("effective")) (lowerL line) = true →
        dateHeading (lowerL line) = litL ("Effective Date"))
    ∧ (isSub (litL ("deadline")) (lowerL line) = false → isSub (litL ("due date")) (lowerL line) = false →
        isSub (litL ("filing date")) (lowerL line) = false → isSub (litL ("hearing")) (lowerL line) = false →
        isSub (litL ("trial")) (lowerL line) = false → isSub (litL ("effective")) (lowerL line) = false →
        (isSub (litL ("tax year")) (lowerL line) = true ∨ isSub (litL ("taxable year")) (lowerL line) = true) →
        dateHeading (lowerL line) = litL ("Tax Year"))
    ∧ (isSub (litL ("deadline")) (lowerL line) = false → isSub (litL ("due date")) (lowerL line) = false →
        isSub (litL ("filing date")) (lowerL line) = false → isSub (litL ("hearing")) (lowerL line) = false →
        isSub (litL ("trial")) (lowerL line) = false → isSub (litL ("effective")) (lowerL line) = false →
        isSub (litL ("tax year")) (lowerL line) = false → isSub (litL ("taxable year")) (lowerL line) = false →
        dateHeading (lowerL line) = litL ("Date"))
    ∧ (∀ (text : List Char), litL ("Filing deadline: 04/15/2024") ∈ splitOnNl text →
        (litL ("Deadline"), litL ("Filing deadline: 04/15/2024")) ∈ dateLineItems text)
    ∧ (∀ (text : List Char) (doc : Doc) (a : Item),
        a ∈ dedupBy Prod.snd (dateStream text doc) [] →
        idxOf a (dedupBy Prod.snd (dateStream text doc) []) < 20 →
        a ∈ extract_dates text doc) := by
  intro line
  refine ⟨?_, ?_, ?_, ?_, ?_, ?_, ?_, ?_, ?_, ?_⟩
  · intro h c heq
    simp only [dateScanLine] at heq
    split at heq
    · exact Option.noConfusion heq
    · split at heq
      · injection heq with heq2
        injection heq2 with hh hc
        exact ⟨hh.symm, hc.symm⟩
      · exact Option.noConfusion heq
  · intro h; simp [dateHeading, h]
  · intro h1 h2; rcases h2 with h | h <;> simp [dateHeading, h1, h]
  · intro h1 h2 h3 h4; simp [dateHeading, h1, h2, h3, h4]
  · intro h1 h2 h3 h4 h5; simp [dateHeading, h1, h2, h3, h4, h5]
  · intro h1 h2 h3 h4 h5 h6; simp [dateHeading, h1, h2, h3, h4, h5, h6]
  · intro h1 h2 h3 h4 h5 h6 h7
    rcases h7 with h | h <;> simp [dateHeading, h1, h2, h3, h4, h5, h6, h]
  · intro h1 h2 h3 h4 h5 h6 h7 h8
    simp [dateHeading, h1, h2, h3, h4, h5, h6, h7, h8]
  · intro text hmem
    exact List.mem_filterMap.mpr ⟨litL ("Filing deadline: 04/15/2024"), hmem, by decide⟩
  · intro text doc a hmem hidx
    exact mem_take_of_idxOf_lt _ a 20 hmem hidx

/-- Witness for the amended C6 at the demo document: the Deadline item
reaches the dates category. -/
theorem C6_deadline_amended_witness :
    (litL ("Deadline"), litL ("Filing deadline: 04/15/2024")) ∈ dateLineItems demoText
    ∧ (litL ("Deadline"), litL ("Filing deadline: 04/15/2024")) ∈ extract_dates demoText emptyDoc := by
  refine ⟨(C6_deadline_amended []).2.2.2.2.2.2.2.2.1 demoText ?_,
    (C6_deadline_amended []).2.2.2.2.2.2.2.2.2 demoText emptyDoc _ ?_ ?_⟩
  · decide
  · decide
  · decide

/-- C7 counterexample: a valid document containing the scenario line
whose fifteen earlier distinct case-number lines exhaust the 15-item
cap, so the scenario item is evicted from case_info. -/
theorem C7_casenum_cex :
    100 ≤ (pyStrip cexC7Text).length
    ∧ litL ("Case No.: 2024-TX-00123") ∈ splitOnNl cexC7Text
    ∧ (litL ("Case Number"), litL ("2024-TX-00123")) ∉ extract_case_info cexC7Text emptyDoc := by
  decide

/-- C7 amended: every capture of the three case-number patterns over the
whole text yields a Case Number item in the collection stream; the scan
is not line-by-line, as shown by a match whose whitespace spans a
newline; and any item among the first fifteen of the deduplicated
stream reaches case_info. -/
theorem C7_casenum_amended : ∀ (text : List Char) (doc : Doc),
    (∀ cap, cap ∈ caseNumberCaptures text →
        (litL ("Case Number"), cap) ∈ caseStream text doc)
    ∧ litL ("ABC-1") ∈ caseNumberCaptures (litL ("Case") ++ '\n' :: litL ("No.: ABC-1"))
    ∧ (∀ a : Item,
        a ∈ dedupBy (fun it => it) (caseStream text doc) [] →
        idxOf a (dedupBy (fun it => it) (caseStream text doc) []) < 15 →
        a ∈ extract_case_info text doc) := by
  intro text doc
  refine ⟨?_, by decide, ?_⟩
  · intro cap hmem
    exact List.mem_append_left _ (List.mem_append_left _ (List.mem_map.mpr ⟨cap, hmem, rfl⟩))
  · intro a hmem hidx
    exact mem_take_of_idxOf_lt _ a 15 hmem hidx

/-- Witness for the amended C7 at the demo document: the scenario item
reaches case_info. -/
theorem C7_casenum_amended_witness :
    (litL ("Case Number"), litL ("2024-TX-00123")) ∈ caseStream demoText emptyDoc
    ∧ (litL ("Case Number"), litL ("2024-TX-00123")) ∈ extract_case_info demoText emptyDoc := by
  refine ⟨(C7_casenum_amended demoText emptyDoc).1 _ ?_,
    (C7_casenum_amended demoText emptyDoc).2.2 _ ?_ ?_⟩
  · decide
  · decide
  · decide

/-- C8 counterexample: a valid document containing the scenario line
whose twenty-five earlier distinct legal-reference lines exhaust the
25-item cap, so the Section item is evicted from legal_refs. -/
theorem C8_legal_cex :
    100 ≤ (pyStrip cexC8Text).length
    ∧ litL ("See Section 501(c)(3) for exemption details") ∈ splitOnNl cexC8Text
    ∧ (litL ("Section"), litL ("See Section 501(c)(3) for exemption details"))
        ∉ extract_legal_references cexC8Text := by
  decide

/-- C8 amended: a line inside the length window is tested against the
six ordered patterns, stopping at the first match and emitting its
heading with the stripped line (none when no pattern matches); a line
matching both the Section and Title patterns contributes only the
Section item; the USC and IRC patterns require the literal mandatory
character the source wrote before the optional one, so plain USC and
IRC citations are not matched; a document containing the scenario line
emits the Section item into the line pass; and any item among the first
twenty-five of the deduplicated stream reaches legal_refs. -/
theorem C8_legal_amended : ∀ (line : List Char),
    (10 < (pyStrip line).length → (pyStrip line).length < 200 →
      ((reSearch legalP1 line = true →
          legalScanLine line = some (litL ("Section"), pyStrip line))
      ∧ (reSearch legalP1 line = false → reSearch legalP2 line = true →
          legalScanLine line = some (litL ("USC Reference"), pyStrip line))
      ∧ (reSearch legalP1 line = false → reSearch legalP2 line = false →
          reSearch legalP3 line = true →
          legalScanLine line = some (litL ("IRC Section"), pyStrip line))
      ∧ (reSearch legalP1 line = false → reSearch legalP2 line = false →
          reSearch legalP3 line = false → reSearch legalP4 line = true →
          legalScanLine line = some (litL ("CFR Reference"), pyStrip line))
      ∧ (reSearch legalP1 line = false → reSearch legalP2 line = false →
          reSearch legalP3 line = false → reSearch legalP4 line = false →
          reSearch legalP5 line = true →
          legalScanLine line = some (litL ("Title Reference"), pyStrip line))
      ∧ (reSearch legalP1 line = false → reSearch legalP2 line = false →
          reSearch legalP3 line = false → reSearch legalP4 line = false →
          reSearch legalP5 line = false → reSearch legalP6 line = true →
          legalScanLine line = some (litL ("Public Law"), pyStrip line))
      ∧ (reSearch legalP1 line = false → reSearch legalP2 line = false →
          reSearch legalP3 line = false → reSearch legalP4 line = false →
          reSearch legalP5 line = false → reSearch legalP6 line = false →
          legalScanLine line = none)))
    ∧ (legalScanLine (litL ("Title 26, Section 61 applies here"))
          = some (litL ("Section"), litL ("Title 26, Section 61 applies here"))
        ∧ reSearch legalP5 (litL ("Title 26, Section 61 applies here")) = true)
    ∧ (legalScanLine (litL ("Under 26 USC 7201 penalties apply")) = none
        ∧ legalScanLine (litL ("pursuant to IRC 61 today")) = none
        ∧ legalScanLine (litL ("see 26 USC ¬ 7201 here"))
            = some (litL ("USC Reference"), litL ("see 26 USC ¬ 7201 here")))
    ∧ (∀ (text : List Char), litL ("See Section 501(c)(3) for exemption details") ∈ splitOnNl text →
        (litL ("Section"), litL ("See Section 501(c)(3) for exemption details"))
          ∈ legalLineItems text)
    ∧ (∀ (text : List Char) (a : Item),
        a ∈ dedupBy Prod.snd (legalLineItems text) [] →
        idxOf a (dedupBy Prod.snd (legalLineItems text) []) < 25 →
        a ∈ extract_legal_references text) := by
  intro line
  refine ⟨?_, by decide, by decide, ?_, ?_⟩
  · intro h10 h200
    have hgate : ¬ ((pyStrip line).length < 10 ∨ 200 < (pyStrip line).length) := by omega
    refine ⟨?_, ?_, ?_, ?_, ?_, ?_, ?_⟩
    · intro hp1
      simp [legalScanLine, if_neg hgate, legalPatterns, List.findSome?, hp1]
    · intro hp1 hp2
      simp [legalScanLine, if_neg hgate, legalPatterns, List.findSome?, hp1, hp2]
    · intro hp1 hp2 hp3
      simp [legalScanLine, if_neg hgate, legalPatterns, List.findSome?, hp1, hp2, hp3]
    · intro hp1 hp2 hp3 hp4
      simp [legalScanLine, if_neg hgate, legalPatterns, List.findSome?, hp1, hp2, hp3, hp4]
    · intro hp1 hp2 hp3 hp4 hp5
      simp [legalScanLine, if_neg hgate, legalPatterns, List.findSome?, hp1, hp2, hp3, hp4, hp5]
    · intro hp1 hp2 hp3 hp4 hp5 hp6
      simp [legalScanLine, if_neg hgate, legalPatterns, List.findSome?, hp1, hp2, hp3, hp4, hp5, hp6]
    · intro hp1 hp2 hp3 hp4 hp5 hp6
      simp [legalScanLine, if_neg hgate, legalPatterns, List.findSome?, hp1, hp2, hp3, hp4, hp5, hp6]
  · intro text hmem
    exact List.mem_filterMap.mpr ⟨litL ("See Section 501(c)(3) for exemption details"), hmem, by decide⟩
  · intro text a hmem hidx
    exact mem_take_of_idxOf_lt _ a 25 hmem hidx

/-- Witness for the amended C8: the first branch applied to the scenario
line, and the category membership at the demo document. -/
theorem C8_legal_amended_witness :
    legalScanLine (litL ("See Section 501(c)(3) for exemption details"))
        = some (litL ("Section"), pyStrip (litL ("See Section 501(c)(3) for exemption details")))
    ∧ (litL ("Section"), litL ("See Section 501(c)(3) for exemption details"))
        ∈ extract_legal_references demoText := by
  refine ⟨((C8_legal_amended (litL ("See Section 501(c)(3) for exemption details"))).1
      ?_ ?_).1 ?_,
    (C8_legal_amended []).2.2.2.2 demoText _ ?_ ?_⟩
  · decide
  · decide
  · decide
  · decide
  · decide

/-- C9: a valid document whose first fifty lines include a line whose
stripped form is the role keyword Plaintiff followed only by a colon
(stripped length strictly between 5 and 100) puts the item with heading
Plaintiff and empty content into case_info: the colon-split content rule
yields the empty string when nothing follows the first colon. -/
theorem C9_empty_party_content :
    100 ≤ (pyStrip c9Text).length
    ∧ litL ("Plaintiff:") ∈ (splitOnNl c9Text).take 50
    ∧ pyStrip (litL ("Plaintiff:")) = litL ("Plaintiff") ++ [':']
    ∧ 5 < (pyStrip (litL ("Plaintiff:"))).length
    ∧ (pyStrip (litL ("Plaintiff:"))).length < 100
    ∧ partyLine (litL ("Plaintiff:")) = some (litL ("Plaintiff"), ([] : List Char))
    ∧ (litL ("Plaintiff"), ([] : List Char)) ∈ extract_case_info c9Text emptyDoc := by
  decide

/-- C10: tax-keyword detection is raw substring containment: in a valid
document, a line whose only occurrences of any tax keyword is the
substring tax inside the word syntax (counted once, exactly as often as
the word syntax itself), and which has a money match and stripped length
strictly between 10 and 200, is emitted into tax_amounts with heading
Amount since no priority keyword occurs in it. -/
theorem C10_substring_keyword :
    100 ≤ (pyStrip c10Text).length
    ∧ 10 < (pyStrip c10Line).length
    ∧ (pyStrip c10Line).length < 200
    ∧ taxKeywords.filter (fun kw => isSub kw (lowerL c10Line)) = [litL ("tax")]
    ∧ countSub (litL ("tax")) (lowerL c10Line) = 1
    ∧ countSub (litL ("syntax")) (lowerL c10Line) = 1
    ∧ taxScanLine c10Line = some (litL ("Amount"), c10Line)
    ∧ (litL ("Amount"), c10Line) ∈ extract_tax_amounts c10Text emptyDoc := by
  decide
